import Mathlib

/-!
Shallow embedding of `src/packages/designer/src/simulator/selection.tsx`
(the selection overlay of the tango visual designer) and proofs of the
spec's claims about it.

Rendering is modelled as pure functions from the component's inputs to a
description of the rendered output (`Option` for components that may
render nothing); event handlers are modelled as functions returning the
list of effects they perform, in order.
-/

namespace Selection

/-- Bounding rectangle of a selected item (`data.bounding`):
on-screen position and size. Coordinates are JS numbers; modelled as `Int`. -/
structure Bounding where
  left : Int
  top : Int
  width : Int
  height : Int
  deriving DecidableEq, Repr

/-- Fields of a selected item other than its ancestor chain.
The ancestor entries of `ISelectedItemData.parents` are used only through
their `id`, `name` and the object spread in `NameSelector` (which
overwrites the `parents` field), so ancestors are modelled by this base
record. -/
structure ItemBase where
  id : String
  name : String
  codeId : Option String
  filename : Option String
  bounding : Option Bounding
  deriving DecidableEq, Repr

/-- A selected item (`ISelectedItemData`): base fields plus the ordered
ancestor chain, nearer-to-root first. -/
structure SelectedItemData where
  base : ItemBase
  parents : List ItemBase
  deriving DecidableEq, Repr

/-- The `childrenName` field of a component prototype: in TS it is
`string | string[]`. -/
inductive ChildrenName where
  | single (s : String)
  | multiple (l : List String)
  deriving DecidableEq, Repr

/-- A component prototype from the workspace's prototype registry. -/
structure ComponentPrototype where
  type : Option String
  title : Option String
  icon : Option String
  help : Option String
  childrenName : Option ChildrenName
  deriving DecidableEq, Repr

/-- The slice of the workspace state that the overlay reads. The
prototype registry is modelled as an association list. -/
structure Workspace where
  componentPrototypes : List (String × ComponentPrototype)
  activeViewFile : Option String
  deriving DecidableEq, Repr

/-- Lookup in the prototype registry (`workspace.componentPrototypes.get`). -/
def protoGet (ws : Workspace) (key : String) : Option ComponentPrototype :=
  (ws.componentPrototypes.find? (fun p => p.1 == key)).map Prod.snd

/-- JS truthiness of a `string | string[]` value: the empty string is
falsy, every array (even the empty one) is truthy. -/
def ChildrenName.truthy : ChildrenName → Bool
  | .single s => s ≠ ""
  | .multiple _ => true

/-- Declared child type names as a list
(`Array.isArray(childrenName) ? childrenName : [childrenName]`). -/
def ChildrenName.names : ChildrenName → List String
  | .single s => [s]
  | .multiple l => l

/-- JS `a || b` for an optional string `a` falling back to `b`:
the fallback is used when `a` is absent or the empty string. -/
def jsOrString (a : Option String) (b : String) : String :=
  match a with
  | none => b
  | some s => if s = "" then b else s

/-- Alignment of the selection helper toolbar
(`SelectionHelperAlignType`). -/
inductive Align where
  | topRight
  | topLeft
  | innerTopRight
  deriving DecidableEq, Repr

/-- Offset used to detect toolbar overflow (`boundingOffset`). -/
def boundingOffset : Int := 100

/-- One entry of the insert-child dropdown (`IInsertedData`). The source
declares `icon`/`description` as `string`, but fills them with
`proto?.icon` / `proto?.help`, which may be `undefined`: modelled as
`Option String`. -/
structure InsertedData where
  name : String
  label : String
  icon : Option String
  description : Option String
  deriving DecidableEq, Repr

/-- Effects that the overlay's event handlers perform, in order.
`ws*` effects are calls into workspace mutators; `platform*` effects are
browser drag-and-drop API calls. -/
inductive Effect where
  | platformSetEffectAllowed (value : String)
  | platformSetDragImage (ghost : String) (x y : Int)
  | wsSetDragSource (d : SelectedItemData)
  | wsClearDragSource
  | wsInsertToSelectedNode (name : String)
  | wsSelect (d : SelectedItemData)
  deriving DecidableEq, Repr

/-- Predicate picking out the workspace-mutator effects. -/
def Effect.isWorkspaceMutation : Effect → Bool
  | .wsSetDragSource _ => true
  | .wsClearDragSource => true
  | .wsInsertToSelectedNode _ => true
  | .wsSelect _ => true
  | _ => false

/-- Tag standing for the DOM element returned by `getDragGhostElement()`
(defined in `../helpers`, outside this file; only its identity matters
here). -/
def dragGhostElement : String := "drag-ghost"

/-- The `onDragStart` handler of the drag handle (lines 160-165): sets
the allowed drop effect, publishes the dragged item as the shared drag
source, and sets the platform drag image to the ghost element. -/
def dragStartHandler (data : SelectedItemData) : List Effect :=
  [.platformSetEffectAllowed "move",
   .wsSetDragSource data,
   .platformSetDragImage dragGhostElement 0 0]

/-- The `onDragEnd` handler of the drag handle (lines 166-168): clears
the shared drag source. -/
def dragEndHandler : List Effect :=
  [.wsClearDragSource]

/-- One rendered breadcrumb entry of `NameSelector`: its React key, its
visible text, and the argument its click handler passes to `onSelect`. -/
structure BreadcrumbEntry where
  key : String
  text : String
  payload : SelectedItemData
  deriving DecidableEq, Repr

/-- Rendered output of `NameSelector`'s ancestor list (lines 354-369):
one entry per parent; clicking entry `i` calls `onSelect` with the
parent's data spread together with `parents: parents.slice(index + 1)`. -/
def nameSelectorEntries (parents : List ItemBase) : List BreadcrumbEntry :=
  parents.enum.map fun p =>
    { key := p.2.id
      text := p.2.name
      payload := { base := p.2, parents := parents.drop (p.1 + 1) } }

/-- The `onSelect` callback that `SelectionBox` passes to `NameSelector`
(lines 177-179): forwards the re-selection request to
`workspace.selectSource.select`. -/
def selectionBoxOnBreadcrumbSelect (item : SelectedItemData) : List Effect :=
  [.wsSelect item]

/-- The `onSelect` callback that `SelectionBox` passes to
`InsertedDropdown` (lines 197-199): inserts the chosen type into the
selected node. -/
def selectionBoxOnInsertSelect (name : String) : List Effect :=
  [.wsInsertToSelectedNode name]

/-- Inline style of the highlight box (lines 131-144). The CSS transform
string is represented by its two translation components; the two CSS
custom color properties are kept verbatim. -/
structure BoxStyle where
  width : Int
  height : Int
  translateX : Int
  translateY : Int
  colorActive : String
  colorActiveHover : String
  deriving DecidableEq, Repr

/-- Rendered output of the toolbar (`SelectionHelpers` subtree, lines
154-204), present only when `showActions` holds. -/
structure ToolbarRender where
  align : Align
  dragHandle : Bool
  nameLabel : String
  breadcrumb : List BreadcrumbEntry
  otherFileIcon : Bool
  actions : List String
  insertedDropdown : Option (List InsertedData)
  deriving DecidableEq, Repr

/-- Rendered output of one `SelectionBox` (`none` when the component
returns `null`). -/
structure BoxRender where
  selectionId : String
  style : BoxStyle
  toolbar : Option ToolbarRender
  deriving DecidableEq, Repr

/-- The insertable-child list of `SelectionBox` (lines 100-115): when the
item's prototype declares `childrenName`, one entry per declared child
type name, resolving label/icon/description from that child's prototype,
the label falling back on the raw name via JS `||`. -/
def insertedListOf (ws : Workspace) (itemName : String) : List InsertedData :=
  match protoGet ws itemName with
  | none => []
  | some prototype =>
    match prototype.childrenName with
    | none => []
    | some cn =>
      if cn.truthy then
        cn.names.map fun child =>
          let proto := protoGet ws child
          { name := child
            label := jsOrString (proto.bind (·.title)) child
            icon := proto.bind (·.icon)
            description := proto.bind (·.help) }
      else []

/-- `SelectionBox` (lines 84-208), as a function from its inputs to its
rendered output. `actions` stands for the (opaque) action elements
received from `SelectionTools`; `viewportWidth` is
`designer.viewport.width`. -/
def SelectionBox (ws : Workspace) (viewportWidth : Int) (showActions : Bool)
    (actions : List String) (data : SelectedItemData) : Option BoxRender :=
  match data.base.bounding with
  | none => none
  | some b =>
    if b.height = 0 ∧ b.width = 0 then
      none
    else
      let prototype := protoGet ws data.base.name
      let isPage : Bool := prototype.bind (·.type) == some "page"
      let insertedList := insertedListOf ws data.base.name
      let selectionHelpersAlign : Align :=
        if b.left + b.width + boundingOffset < viewportWidth then .topLeft
        else if b.top < 20 then .innerTopRight
        else .topRight
      let isFromCurrentFile : Bool := data.base.filename == ws.activeViewFile
      let style : BoxStyle :=
        { width := b.width
          height := b.height
          translateX := b.left
          translateY := b.top
          colorActive :=
            if isFromCurrentFile then "var(--tango-colors-brand)"
            else "var(--tango-colors-gray-60)"
          colorActiveHover :=
            if isFromCurrentFile then "var(--tango-colors-primary-50)"
            else "var(--tango-colors-gray-50)" }
      some
        { selectionId := data.base.id
          style := style
          toolbar :=
            if showActions then
              some
                { align := selectionHelpersAlign
                  dragHandle := !isPage
                  nameLabel := jsOrString data.base.codeId data.base.name
                  breadcrumb := nameSelectorEntries data.parents
                  otherFileIcon := !isFromCurrentFile
                  actions := if !isPage then actions else []
                  insertedDropdown :=
                    if insertedList.length > 0 then some insertedList
                    else none }
            else none }

/-- `SelectionTools` (lines 26-50): one `SelectionBox` per selected item,
keyed by the item's `id`, with `showActions` exactly when the selection
has one member. The already-resolved action elements are opaque. -/
def SelectionTools (ws : Workspace) (viewportWidth : Int)
    (actions : List String) (selected : List SelectedItemData) :
    List (String × Option BoxRender) :=
  selected.map fun item =>
    (item.base.id,
     SelectionBox ws viewportWidth (selected.length == 1) actions item)

/-! Closed forms of the rendered output, used to invert `SelectionBox`. -/

/-- Closed form of the toolbar rendered by `SelectionBox` for an item
with bounding rectangle `b`. -/
def renderedToolbar (ws : Workspace) (vw : Int) (actions : List String)
    (data : SelectedItemData) (b : Bounding) : ToolbarRender :=
  { align :=
      if b.left + b.width + boundingOffset < vw then .topLeft
      else if b.top < 20 then .innerTopRight
      else .topRight
    dragHandle := !((protoGet ws data.base.name).bind (·.type) == some "page")
    nameLabel := jsOrString data.base.codeId data.base.name
    breadcrumb := nameSelectorEntries data.parents
    otherFileIcon := !(data.base.filename == ws.activeViewFile)
    actions :=
      if !((protoGet ws data.base.name).bind (·.type) == some "page") then actions
      else []
    insertedDropdown :=
      if (insertedListOf ws data.base.name).length > 0 then
        some (insertedListOf ws data.base.name)
      else none }

/-- Closed form of the box rendered by `SelectionBox` for an item with
bounding rectangle `b`. -/
def renderedBox (ws : Workspace) (vw : Int) (sact : Bool)
    (actions : List String) (data : SelectedItemData) (b : Bounding) : BoxRender :=
  { selectionId := data.base.id
    style :=
      { width := b.width, height := b.height
        translateX := b.left, translateY := b.top
        colorActive :=
          if data.base.filename == ws.activeViewFile then "var(--tango-colors-brand)"
          else "var(--tango-colors-gray-60)"
        colorActiveHover :=
          if data.base.filename == ws.activeViewFile then "var(--tango-colors-primary-50)"
          else "var(--tango-colors-gray-50)" }
    toolbar := if sact then some (renderedToolbar ws vw actions data b) else none }

/-- Inversion lemma: `SelectionBox` renders `some r` exactly when the
item has a bounding rectangle that is not zero in both dimensions, and
then `r` is the closed-form `renderedBox`. -/
theorem selectionBox_some_iff (ws : Workspace) (vw : Int) (sact : Bool)
    (actions : List String) (data : SelectedItemData) (r : BoxRender) :
    SelectionBox ws vw sact actions data = some r ↔
    ∃ b, data.base.bounding = some b ∧ ¬(b.height = 0 ∧ b.width = 0) ∧
      r = renderedBox ws vw sact actions data b := by
  cases hdb : data.base.bounding with
  | none => simp [SelectionBox, hdb]
  | some b =>
    by_cases hg : b.height = 0 ∧ b.width = 0
    · simp [SelectionBox, hdb, hg]
    · have hmain : SelectionBox ws vw sact actions data =
          some (renderedBox ws vw sact actions data b) := by
        simp only [SelectionBox, hdb, if_neg hg]
        rfl
      rw [hmain]
      constructor
      · intro h
        exact ⟨b, rfl, hg, (Option.some.inj h).symm⟩
      · rintro ⟨b', hb', hg', hr'⟩
        injection hb' with h
        subst h
        rw [hr']

/-- Inversion lemma for the toolbar of a rendered box: it is present
exactly when `showActions` holds, and then it is the closed-form
`renderedToolbar`. -/
theorem renderedBox_toolbar_some (ws : Workspace) (vw : Int) (sact : Bool)
    (actions : List String) (data : SelectedItemData) (b : Bounding)
    (t : ToolbarRender)
    (ht : (renderedBox ws vw sact actions data b).toolbar = some t) :
    sact = true ∧ t = renderedToolbar ws vw actions data b := by
  cases sact with
  | false => simp [renderedBox] at ht
  | true =>
    simp only [renderedBox, if_true] at ht
    exact ⟨rfl, by simpa [eq_comm] using ht⟩

/-! Concrete fixtures used by witnesses. -/

/-- Prototype of a page component. -/
def pageProto : ComponentPrototype :=
  { type := some "page", title := some "Page", icon := none, help := none
    childrenName := none }

/-- Prototype of a container declaring two allowed child types. -/
def formProto : ComponentPrototype :=
  { type := some "container", title := some "Form", icon := none, help := none
    childrenName := some (.multiple ["FormItem", "Mystery"]) }

/-- Prototype of a child component with full metadata. -/
def formItemProto : ComponentPrototype :=
  { type := some "element", title := some "Form item", icon := some "icon-form"
    help := some "a single form item", childrenName := none }

/-- Sample workspace: three registered prototypes and an active file. -/
def sampleWs : Workspace :=
  { componentPrototypes :=
      [("Page", pageProto), ("Form", formProto), ("FormItem", formItemProto)]
    activeViewFile := some "src/pages/index.jsx" }

/-- Sample bounding rectangle whose toolbar fits on the left. -/
def sampleBounding : Bounding := { left := 5, top := 30, width := 40, height := 20 }

/-- Sample selected item of a registered container type, with two ancestors. -/
def sampleItem : SelectedItemData :=
  { base := { id := "n1", name := "Form", codeId := some "form1"
              filename := some "src/pages/index.jsx", bounding := some sampleBounding }
    parents :=
      [{ id := "p1", name := "Section", codeId := none
         filename := some "src/pages/index.jsx", bounding := none },
       { id := "p2", name := "Page", codeId := some "root"
         filename := some "src/pages/index.jsx", bounding := none }] }

/-- Selected item whose bounding box has zero width and zero height. -/
def zeroSizeItem : SelectedItemData :=
  { base := { id := "z1", name := "Spacer", codeId := none, filename := none
              bounding := some { left := 3, top := 4, width := 0, height := 0 } }
    parents := [] }

/-- Selected item with zero width but nonzero height. -/
def flatItem : SelectedItemData :=
  { base := { id := "f1", name := "Line", codeId := none, filename := none
              bounding := some { left := 0, top := 0, width := 0, height := 12 } }
    parents := [] }

/-- Selected item of a type absent from the prototype registry, from a
file other than the active one, near the top-right corner. -/
def unknownItem : SelectedItemData :=
  { base := { id := "u1", name := "Unknown", codeId := none
              filename := some "src/pages/other.jsx"
              bounding := some { left := 700, top := 10, width := 50, height := 20 } }
    parents := [] }

/-- Selected page-type item. -/
def pageItem : SelectedItemData :=
  { base := { id := "pg", name := "Page", codeId := none
              filename := some "src/pages/index.jsx", bounding := some sampleBounding }
    parents := [] }

/-! Claims. -/

/-- C1: for every selected item, `SelectionBox` renders nothing when the
item's bounding geometry is absent, or when both the bounding width and
the bounding height are zero; in particular no highlight box is ever
rendered for an item with width=0 and height=0. -/
theorem selectionBox_none_without_geometry (ws : Workspace) (vw : Int)
    (sact : Bool) (actions : List String) (data : SelectedItemData)
    (h : data.base.bounding = none ∨
      ∃ b, data.base.bounding = some b ∧ b.width = 0 ∧ b.height = 0) :
    SelectionBox ws vw sact actions data = none := by
  rcases h with h | ⟨b, hb, hw, hh⟩
  · simp [SelectionBox, h]
  · simp [SelectionBox, hb, hw, hh]

/-- Witness for C1: the concrete zero-size item renders nothing. -/
theorem selectionBox_none_without_geometry_witness :
    SelectionBox sampleWs 800 true [] zeroSizeItem = none :=
  selectionBox_none_without_geometry sampleWs 800 true [] zeroSizeItem
    (Or.inr ⟨_, rfl, rfl, rfl⟩)

/-- Anchor rule exactly as the specification words it: offset 100 and
threshold 20, three branches. Written from the spec, to be compared with
the rendering computed by `SelectionBox`. -/
def anchorRuleSpec (left width top viewportWidth : Int) : Align :=
  if left + width + 100 < viewportWidth then .topLeft
  else if top < 20 then .innerTopRight
  else .topRight

/-- C2: for every selected item with bounding geometry whose toolbar is
shown, the rendered toolbar anchor is the deterministic three-branch
function of (left, width, top, viewport width) stated by the spec. -/
theorem selectionBox_anchor_matches_spec (ws : Workspace) (vw : Int)
    (actions : List String) (data : SelectedItemData) (b : Bounding)
    (r : BoxRender) (t : ToolbarRender)
    (hb : data.base.bounding = some b)
    (hr : SelectionBox ws vw true actions data = some r)
    (ht : r.toolbar = some t) :
    t.align = anchorRuleSpec b.left b.width b.top vw := by
  obtain ⟨b', hb', hg, hr'⟩ := (selectionBox_some_iff ws vw true actions data r).mp hr
  rw [hb] at hb'
  injection hb' with hbb
  subst hbb
  subst hr'
  obtain ⟨-, htt⟩ := renderedBox_toolbar_some ws vw true actions data b t ht
  subst htt
  simp [renderedToolbar, anchorRuleSpec, boundingOffset]

/-- Rendered toolbar of `unknownItem` in `sampleWs` at viewport width 800
with one action element. -/
def plainToolbar : ToolbarRender :=
  { align := .innerTopRight, dragHandle := true, nameLabel := "Unknown"
    breadcrumb := [], otherFileIcon := true, actions := ["a1"]
    insertedDropdown := none }

/-- Rendered box of `unknownItem` in `sampleWs` at viewport width 800
with one action element. -/
def plainRender : BoxRender :=
  { selectionId := "u1"
    style := { width := 50, height := 20, translateX := 700, translateY := 10
               colorActive := "var(--tango-colors-gray-60)"
               colorActiveHover := "var(--tango-colors-gray-50)" }
    toolbar := some plainToolbar }

/-- Witness for C2: the concrete unknown item near the viewport's
top-right corner gets the `inner-top-right` anchor, as the spec rule
computes. -/
theorem selectionBox_anchor_matches_spec_witness :
    plainToolbar.align = anchorRuleSpec 700 50 10 800 :=
  selectionBox_anchor_matches_spec sampleWs 800 ["a1"] unknownItem
    { left := 700, top := 10, width := 50, height := 20 }
    plainRender plainToolbar rfl rfl rfl

/-- C3: `SelectionTools` renders one `SelectionBox` per item of the
selection set, keyed by the item's identifier, with `showActions` exactly
when the selection has one member; and a rendered box shows the toolbar
controls exactly when `showActions` holds. -/
theorem selectionTools_one_box_per_item (ws : Workspace) (vw : Int)
    (actions : List String) (selected : List SelectedItemData) :
    (∀ i : Nat, (SelectionTools ws vw actions selected)[i]? =
      selected[i]?.map fun item =>
        (item.base.id, SelectionBox ws vw (selected.length == 1) actions item))
    ∧ (∀ (sact : Bool) (data : SelectedItemData) (r : BoxRender),
        SelectionBox ws vw sact actions data = some r → r.toolbar.isSome = sact) := by
  constructor
  · intro i
    simp [SelectionTools]
  · intro sact data r hr
    obtain ⟨b, hb, hg, hr'⟩ := (selectionBox_some_iff ws vw sact actions data r).mp hr
    subst hr'
    cases sact <;> simp [renderedBox]

/-- Witness for C3: the singleton selection set yields one box keyed by
the item's id with `showActions`, and the rendered toolbar is present. -/
theorem selectionTools_one_box_per_item_witness :
    ((SelectionTools sampleWs 800 ["a1"] [unknownItem])[0]? =
      ([unknownItem] : List SelectedItemData)[0]?.map fun item =>
        (item.base.id,
         SelectionBox sampleWs 800 (([unknownItem] : List SelectedItemData).length == 1)
           ["a1"] item))
    ∧ plainRender.toolbar.isSome = true :=
  ⟨(selectionTools_one_box_per_item sampleWs 800 ["a1"] [unknownItem]).1 0,
   (selectionTools_one_box_per_item sampleWs 800 ["a1"] [unknownItem]).2 true
     unknownItem plainRender rfl⟩

/-- C4: the breadcrumb entry for the ancestor at index `i` carries, as
its click payload, that ancestor's data with the `parents` field
truncated to the elements strictly after `i`, and `SelectionBox`
forwards the payload to `workspace.selectSource.select`. -/
theorem nameSelector_click_truncates (parents : List ItemBase) (i : Nat)
    (h : i < parents.length) :
    (nameSelectorEntries parents)[i]? =
      some { key := parents[i].id, text := parents[i].name
             payload := { base := parents[i], parents := parents.drop (i + 1) } }
    ∧ selectionBoxOnBreadcrumbSelect
        { base := parents[i], parents := parents.drop (i + 1) } =
      [Effect.wsSelect { base := parents[i], parents := parents.drop (i + 1) }] := by
  constructor
  · simp [nameSelectorEntries, List.getElem?_eq_getElem h]
  · rfl

/-- Witness for C4: clicking the first of the two ancestors of the
sample item re-selects it with only the remaining ancestor below it. -/
theorem nameSelector_click_truncates_witness :
    (nameSelectorEntries sampleItem.parents)[0]? =
      some { key := sampleItem.parents[0].id, text := sampleItem.parents[0].name
             payload := { base := sampleItem.parents[0]
                          parents := sampleItem.parents.drop 1 } }
    ∧ selectionBoxOnBreadcrumbSelect
        { base := sampleItem.parents[0], parents := sampleItem.parents.drop 1 } =
      [Effect.wsSelect
        { base := sampleItem.parents[0], parents := sampleItem.parents.drop 1 }] :=
  nameSelector_click_truncates sampleItem.parents 0 (by decide)

/-- C9: when exactly one of width and height is zero the highlight box
IS rendered, with its inline style taking the zero dimension verbatim. -/
theorem selectionBox_renders_one_zero_dimension (ws : Workspace) (vw : Int)
    (sact : Bool) (actions : List String) (data : SelectedItemData) (b : Bounding)
    (hb : data.base.bounding = some b)
    (h : (b.width = 0 ∧ b.height ≠ 0) ∨ (b.width ≠ 0 ∧ b.height = 0)) :
    ∃ r, SelectionBox ws vw sact actions data = some r ∧
      r.style.width = b.width ∧ r.style.height = b.height := by
  have hg : ¬(b.height = 0 ∧ b.width = 0) := by
    rcases h with ⟨hw, hh⟩ | ⟨hw, hh⟩
    · exact fun hc => hh hc.1
    · exact fun hc => hw hc.2
  exact ⟨renderedBox ws vw sact actions data b,
    (selectionBox_some_iff ws vw sact actions data _).mpr ⟨b, hb, hg, rfl⟩,
    rfl, rfl⟩

/-- Witness for C9: the concrete zero-width, height-12 item renders with
width 0 and height 12 in its style. -/
theorem selectionBox_renders_one_zero_dimension_witness :
    ∃ r, SelectionBox sampleWs 800 true [] flatItem = some r ∧
      r.style.width = 0 ∧ r.style.height = 12 :=
  selectionBox_renders_one_zero_dimension sampleWs 800 true [] flatItem
    { left := 0, top := 0, width := 0, height := 12 } rfl
    (Or.inl ⟨rfl, by decide⟩)

/-- Rendered toolbar of `pageItem` in `sampleWs` at viewport width 800
with one action element passed in. -/
def pageToolbar : ToolbarRender :=
  { align := .topLeft, dragHandle := false, nameLabel := "Page"
    breadcrumb := [], otherFileIcon := false, actions := []
    insertedDropdown := none }

/-- Rendered box of `pageItem` in `sampleWs` at viewport width 800 with
one action element passed in. -/
def pageRender : BoxRender :=
  { selectionId := "pg"
    style := { width := 40, height := 20, translateX := 5, translateY := 30
               colorActive := "var(--tango-colors-brand)"
               colorActiveHover := "var(--tango-colors-primary-50)" }
    toolbar := some pageToolbar }

/-- C5 counterexample: for the concrete 'page'-type item the toolbar is
shown, yet the pluggable action elements are NOT rendered — the rendered
action list is empty rather than the list passed in — refuting that the
toolbar "always renders ... the pluggable action elements for every
item". -/
theorem selectionBox_page_item_drops_actions :
    SelectionBox sampleWs 800 true ["a1"] pageItem = some pageRender ∧
    pageRender.toolbar = some pageToolbar ∧
    pageToolbar.actions = [] ∧ pageToolbar.actions ≠ ["a1"] ∧
    pageToolbar.dragHandle = false := by
  refine ⟨rfl, rfl, rfl, ?_, rfl⟩
  decide

/-- C5 (amended): when the toolbar is shown it always renders the name
breadcrumb; the drag handle and the pluggable action elements are each
rendered exactly when the item's prototype type is not 'page'; in
particular 'page'-type items show neither the drag handle nor the
action elements. -/
theorem selectionBox_toolbar_composition (ws : Workspace) (vw : Int)
    (actions : List String) (data : SelectedItemData) (r : BoxRender)
    (t : ToolbarRender)
    (hr : SelectionBox ws vw true actions data = some r)
    (ht : r.toolbar = some t) :
    t.nameLabel = jsOrString data.base.codeId data.base.name ∧
    t.breadcrumb = nameSelectorEntries data.parents ∧
    t.dragHandle = !((protoGet ws data.base.name).bind (·.type) == some "page") ∧
    t.actions =
      (if (protoGet ws data.base.name).bind (·.type) == some "page" then []
       else actions) := by
  obtain ⟨b, hb, hg, hr'⟩ := (selectionBox_some_iff ws vw true actions data r).mp hr
  subst hr'
  obtain ⟨-, htt⟩ := renderedBox_toolbar_some ws vw true actions data b t ht
  subst htt
  refine ⟨rfl, rfl, rfl, ?_⟩
  cases hP : (protoGet ws data.base.name).bind (·.type) == some "page" <;>
    simp [renderedToolbar, hP]

/-- Witness for the amended C5 at the concrete non-page item: drag handle
and action elements are rendered. -/
theorem selectionBox_toolbar_composition_witness :
    plainToolbar.nameLabel = jsOrString unknownItem.base.codeId unknownItem.base.name ∧
    plainToolbar.breadcrumb = nameSelectorEntries unknownItem.parents ∧
    plainToolbar.dragHandle =
      !((protoGet sampleWs unknownItem.base.name).bind (·.type) == some "page") ∧
    plainToolbar.actions =
      (if (protoGet sampleWs unknownItem.base.name).bind (·.type) == some "page" then []
       else ["a1"]) :=
  selectionBox_toolbar_composition sampleWs 800 ["a1"] unknownItem
    plainRender plainToolbar rfl rfl

/-- C6: when the prototype declares child-type name(s), the
insertable-child list has one entry per declared name, each entry's
label/icon/description resolved from the child's prototype, the label
falling back to the raw child type name when the child prototype or its
title is missing; choosing an entry invokes `insertToSelectedNode` with
the entry's raw type name. -/
theorem insertedList_resolution (ws : Workspace) (itemName : String)
    (p : ComponentPrototype) (cn : ChildrenName)
    (hp : protoGet ws itemName = some p)
    (hcn : p.childrenName = some cn)
    (htr : cn.truthy = true) :
    ((insertedListOf ws itemName).map (fun e => e.name) = cn.names) ∧
    (∀ e ∈ insertedListOf ws itemName,
      e.label = jsOrString ((protoGet ws e.name).bind (·.title)) e.name ∧
      e.icon = (protoGet ws e.name).bind (·.icon) ∧
      e.description = (protoGet ws e.name).bind (·.help)) ∧
    (∀ e ∈ insertedListOf ws itemName,
      (protoGet ws e.name).bind (·.title) = none → e.label = e.name) ∧
    (∀ name, selectionBoxOnInsertSelect name =
      [Effect.wsInsertToSelectedNode name]) := by
  have hlist : insertedListOf ws itemName = cn.names.map (fun child =>
      { name := child
        label := jsOrString ((protoGet ws child).bind (·.title)) child
        icon := (protoGet ws child).bind (·.icon)
        description := (protoGet ws child).bind (·.help) }) := by
    simp [insertedListOf, hp, hcn, htr]
  refine ⟨?_, ?_, ?_, fun _ => rfl⟩
  · rw [hlist, List.map_map]
    exact List.map_id _
  · intro e he
    rw [hlist] at he
    obtain ⟨child, hc, rfl⟩ := List.mem_map.mp he
    exact ⟨rfl, rfl, rfl⟩
  · intro e he hnone
    rw [hlist] at he
    obtain ⟨child, hc, rfl⟩ := List.mem_map.mp he
    simp only [jsOrString, hnone]

/-- Witness for C6: the Form prototype declares two child names; entries
keep them in order; the Mystery child (not in the registry) falls back
to its raw name as label. -/
theorem insertedList_resolution_witness :
    protoGet sampleWs "Form" = some formProto ∧
    formProto.childrenName = some (ChildrenName.multiple ["FormItem", "Mystery"]) ∧
    (insertedListOf sampleWs "Form").map (fun e => e.name) =
      ChildrenName.names (ChildrenName.multiple ["FormItem", "Mystery"]) :=
  ⟨rfl, rfl,
   (insertedList_resolution sampleWs "Form" formProto
     (ChildrenName.multiple ["FormItem", "Mystery"]) rfl rfl rfl).1⟩

/-- C7: a rendered box's highlight colors are selected exactly by the
equality of the item's filename with the workspace's active view file,
and the same flag gates the 'from another file' info icon. -/
theorem selectionBox_file_theme (ws : Workspace) (vw : Int) (sact : Bool)
    (actions : List String) (data : SelectedItemData) (r : BoxRender)
    (hr : SelectionBox ws vw sact actions data = some r) :
    (r.style.colorActive =
      if data.base.filename == ws.activeViewFile then "var(--tango-colors-brand)"
      else "var(--tango-colors-gray-60)") ∧
    (r.style.colorActiveHover =
      if data.base.filename == ws.activeViewFile then "var(--tango-colors-primary-50)"
      else "var(--tango-colors-gray-50)") ∧
    ∀ t, r.toolbar = some t →
      t.otherFileIcon = !(data.base.filename == ws.activeViewFile) := by
  obtain ⟨b, hb, hg, hr'⟩ := (selectionBox_some_iff ws vw sact actions data r).mp hr
  subst hr'
  refine ⟨rfl, rfl, ?_⟩
  intro t ht
  obtain ⟨-, htt⟩ := renderedBox_toolbar_some ws vw sact actions data b t ht
  subst htt
  rfl

/-- Witness for C7 at the concrete item from another file: gray colors
and the info icon. -/
theorem selectionBox_file_theme_witness :
    (plainRender.style.colorActive =
      if unknownItem.base.filename == sampleWs.activeViewFile then
        "var(--tango-colors-brand)"
      else "var(--tango-colors-gray-60)") ∧
    (plainRender.style.colorActiveHover =
      if unknownItem.base.filename == sampleWs.activeViewFile then
        "var(--tango-colors-primary-50)"
      else "var(--tango-colors-gray-50)") ∧
    ∀ t, plainRender.toolbar = some t →
      t.otherFileIcon = !(unknownItem.base.filename == sampleWs.activeViewFile) :=
  selectionBox_file_theme sampleWs 800 true ["a1"] unknownItem plainRender rfl

/-- C8: on drag-start the handler's workspace mutations are exactly
setting the shared drag source to the item's data, and it sets the
platform drag image to the drag-ghost element; on drag-end the workspace
mutations are exactly clearing the drag source. -/
theorem dragHandlers_effects (data : SelectedItemData) :
    (dragStartHandler data).filter Effect.isWorkspaceMutation =
      [Effect.wsSetDragSource data] ∧
    dragEndHandler.filter Effect.isWorkspaceMutation =
      [Effect.wsClearDragSource] ∧
    Effect.platformSetDragImage dragGhostElement 0 0 ∈ dragStartHandler data := by
  refine ⟨rfl, rfl, ?_⟩
  simp [dragStartHandler]

/-- C10: an item whose name has no registry entry still renders, is
treated as non-page (drag handle and action elements render), has an
empty insertable-child list and hence no insert-child dropdown; and in
general the dropdown is absent exactly when the insertable-child list is
empty. -/
theorem selectionBox_unregistered_name (ws : Workspace) (vw : Int)
    (actions : List String) (data : SelectedItemData) (b : Bounding)
    (hp : protoGet ws data.base.name = none)
    (hb : data.base.bounding = some b)
    (hg : ¬(b.height = 0 ∧ b.width = 0)) :
    (∃ r t, SelectionBox ws vw true actions data = some r ∧ r.toolbar = some t ∧
      t.dragHandle = true ∧ t.actions = actions ∧
      insertedListOf ws data.base.name = [] ∧ t.insertedDropdown = none) ∧
    (∀ (ws2 : Workspace) (sact : Bool) (data2 : SelectedItemData) (r : BoxRender)
      (t : ToolbarRender), SelectionBox ws2 vw sact actions data2 = some r →
      r.toolbar = some t →
      (t.insertedDropdown = none ↔ insertedListOf ws2 data2.base.name = [])) := by
  have hins : insertedListOf ws data.base.name = [] := by
    simp [insertedListOf, hp]
  constructor
  · refine ⟨renderedBox ws vw true actions data b,
      renderedToolbar ws vw actions data b,
      (selectionBox_some_iff ws vw true actions data _).mpr ⟨b, hb, hg, rfl⟩,
      ?_, ?_, ?_, hins, ?_⟩
    · simp [renderedBox]
    · simp [renderedToolbar, hp]
    · simp [renderedToolbar, hp]
    · simp [renderedToolbar, hins]
  · intro ws2 sact data2 r t hr ht
    obtain ⟨b2, hb2, hg2, hr'⟩ :=
      (selectionBox_some_iff ws2 vw sact actions data2 r).mp hr
    subst hr'
    obtain ⟨-, htt⟩ := renderedBox_toolbar_some ws2 vw sact actions data2 b2 t ht
    subst htt
    simp only [renderedToolbar]
    cases hL : insertedListOf ws2 data2.base.name with
    | nil => simp
    | cons x xs => simp

/-- Witness for C10: the concrete unregistered item renders with drag
handle and actions, and without the insert-child dropdown. -/
theorem selectionBox_unregistered_name_witness :
    protoGet sampleWs "Unknown" = none ∧
    (∃ r t, SelectionBox sampleWs 800 true ["a1"] unknownItem = some r ∧
      r.toolbar = some t ∧ t.dragHandle = true ∧ t.actions = ["a1"] ∧
      insertedListOf sampleWs "Unknown" = [] ∧ t.insertedDropdown = none) :=
  ⟨rfl, (selectionBox_unregistered_name sampleWs 800 ["a1"] unknownItem
    { left := 700, top := 10, width := 50, height := 20 } rfl rfl (by decide)).1⟩

end Selection
